import Mathlib

/-!
Verification development for the multi-transport MCP JSON-RPC client layer
of this repository (e2e_tests/mcp_client.py, e2e_tests/http_client.py,
e2e_tests/sse_client.py). Byte strings are modelled as `List Char`
(the clients only ever handle ASCII protocol text), decoded JSON values as
the inductive `Json` below, and the Python stdlib collaborator `json.loads`
as the recursive-descent `jsonLoads` (covering the JSON fragment these
clients exchange: objects, arrays, strings without unicode escapes,
integers, booleans, null). Python `None` and JSON `null` coincide in the
model as `Json.null`, matching the behaviour of `dict.get` and `json.loads`.
-/

namespace MCP

/-- JSON values as produced by `json.loads` (numbers restricted to integers,
which is all these clients exchange). -/
inductive Json where
  | null : Json
  | bool (b : Bool) : Json
  | num (n : Int) : Json
  | str (s : String) : Json
  | arr (xs : List Json) : Json
  | obj (kvs : List (String × Json)) : Json

mutual

/-- Boolean equality on `Json` values, modelling Python `==` on the results
of `json.loads` (numbers compare by value, containers structurally). -/
def Json.beq : Json → Json → Bool
  | .null, .null => true
  | .bool a, .bool b => a == b
  | .num a, .num b => a == b
  | .str a, .str b => a == b
  | .arr xs, .arr ys => Json.beqList xs ys
  | .obj xs, .obj ys => Json.beqObj xs ys
  | _, _ => false

/-- Elementwise equality of decoded JSON arrays. -/
def Json.beqList : List Json → List Json → Bool
  | [], [] => true
  | x :: xs, y :: ys => Json.beq x y && Json.beqList xs ys
  | _, _ => false

/-- Memberwise equality of decoded JSON objects. -/
def Json.beqObj : List (String × Json) → List (String × Json) → Bool
  | [], [] => true
  | (k, v) :: xs, (l, w) :: ys => k == l && Json.beq v w && Json.beqObj xs ys
  | _, _ => false

end

/-- Python `msg.get(key)` on a decoded JSON object: the first value bound to
`key`, and Python `None` (= `Json.null`) when the key is absent or the value
is not an object. -/
def Json.pyGet (j : Json) (key : String) : Json :=
  match j with
  | .obj kvs =>
    (match kvs.find? (fun kv => kv.1 == key) with
      | some kv => kv.2
      | none => .null)
  | _ => .null

/-- Python `key in msg` for a decoded JSON object. -/
def Json.hasKey (j : Json) (key : String) : Bool :=
  match j with
  | .obj kvs => kvs.any (fun kv => kv.1 == key)
  | _ => false

/-- Python truthiness of a decoded JSON value (`bool(x)`): `None`, `False`,
`0`, `""`, `[]`, `{}` are falsy. -/
def Json.pyTruthy : Json → Bool
  | .null => false
  | .bool b => b
  | .num n => !(n == 0)
  | .str s => !(s == "")
  | .arr xs => !xs.isEmpty
  | .obj kvs => !kvs.isEmpty

/-! ### Python byte/str helpers, on `List Char` -/

/-- Characters stripped by Python's no-argument `strip`/`lstrip` on ASCII
text: space, tab, newline, carriage return, vertical tab, form feed. -/
def pyWsChar (c : Char) : Bool :=
  c == ' ' || c == '\t' || c == '\n' || c == '\r' || c == '\x0b' || c == '\x0c'

/-- Python `s.lstrip()` (no argument): drop all leading whitespace. -/
def pyLstrip (s : List Char) : List Char := s.dropWhile pyWsChar

/-- Python `s.rstrip()` (no argument): drop all trailing whitespace. -/
def pyRstrip (s : List Char) : List Char := (s.reverse.dropWhile pyWsChar).reverse

/-- Python `s.strip()` (no argument). -/
def pyStrip (s : List Char) : List Char := pyRstrip (pyLstrip s)

/-- Python `line.rstrip(b"\r\n")`: drop trailing CR/LF characters. -/
def rstripCRLF (s : List Char) : List Char :=
  (s.reverse.dropWhile (fun c => c == '\r' || c == '\n')).reverse

/-- Python `s.startswith(p)`. -/
def pyStartsWith (p s : List Char) : Bool := p.isPrefixOf s

/-! ### A model of `json.loads` on the fragment the clients exchange -/

/-- Skip JSON whitespace. -/
def jsonWs (s : List Char) : List Char :=
  s.dropWhile (fun c => c == ' ' || c == '\t' || c == '\n' || c == '\r')

/-- Parse the body of a JSON string literal (after the opening quote),
handling the simple escapes; returns the string and the rest after the
closing quote. -/
def parseJString (fuel : Nat) (s : List Char) (acc : List Char) :
    Option (String × List Char) :=
  match fuel, s with
  | 0, _ => none
  | _, [] => none
  | fuel + 1, c :: rest =>
    if c == '"' then some (⟨acc.reverse⟩, rest)
    else if c == '\\' then
      match rest with
      | [] => none
      | e :: rest' =>
        let dec : Option Char :=
          if e == '"' then some '"'
          else if e == '\\' then some '\\'
          else if e == '/' then some '/'
          else if e == 'n' then some '\n'
          else if e == 't' then some '\t'
          else if e == 'r' then some '\r'
          else none
        match dec with
        | some d => parseJString fuel rest' (d :: acc)
        | none => none
    else parseJString fuel rest (c :: acc)

/-- Parse a run of decimal digits into a natural number. -/
def parseDigits (fuel : Nat) (s : List Char) (acc : Nat) (seen : Bool) :
    Option (Nat × List Char) :=
  match fuel, s with
  | 0, _ => if seen then some (acc, s) else none
  | fuel + 1, c :: rest =>
    if c.isDigit then parseDigits fuel rest (acc * 10 + (c.toNat - 48)) true
    else if seen then some (acc, s) else none
  | _, [] => if seen then some (acc, s) else none

mutual

/-- Parse one JSON value; returns the value and the unconsumed rest. -/
def parseJValue (fuel : Nat) (s : List Char) : Option (Json × List Char) :=
  match fuel with
  | 0 => none
  | fuel + 1 =>
    match jsonWs s with
    | [] => none
    | c :: rest =>
      if c == 'n' then
        if pyStartsWith "ull".toList rest then some (.null, rest.drop 3) else none
      else if c == 't' then
        if pyStartsWith "rue".toList rest then some (.bool true, rest.drop 3) else none
      else if c == 'f' then
        if pyStartsWith "alse".toList rest then some (.bool false, rest.drop 4) else none
      else if c == '"' then
        match parseJString (rest.length + 1) rest [] with
        | some (str, rest') => some (.str str, rest')
        | none => none
      else if c == '-' then
        match parseDigits (rest.length + 1) rest 0 false with
        | some (n, rest') => some (.num (-(n : Int)), rest')
        | none => none
      else if c.isDigit then
        match parseDigits (s.length + 1) (c :: rest) 0 false with
        | some (n, rest') => some (.num (n : Int), rest')
        | none => none
      else if c == '[' then
        match jsonWs rest with
        | ']' :: rest' => some (.arr [], rest')
        | _ =>
          match parseJItems fuel rest [] with
          | some (xs, rest') => some (.arr xs, rest')
          | none => none
      else if c == '\x7b' then
        match jsonWs rest with
        | '\x7d' :: rest' => some (.obj [], rest')
        | _ =>
          match parseJMembers fuel rest [] with
          | some (kvs, rest') => some (.obj kvs, rest')
          | none => none
      else none

/-- Parse comma-separated array items up to the closing bracket. -/
def parseJItems (fuel : Nat) (s : List Char) (acc : List Json) :
    Option (List Json × List Char) :=
  match fuel with
  | 0 => none
  | fuel + 1 =>
    match parseJValue fuel s with
    | none => none
    | some (v, rest) =>
      match jsonWs rest with
      | ',' :: rest' => parseJItems fuel rest' (v :: acc)
      | ']' :: rest' => some ((v :: acc).reverse, rest')
      | _ => none

/-- Parse comma-separated object members up to the closing brace. -/
def parseJMembers (fuel : Nat) (s : List Char) (acc : List (String × Json)) :
    Option (List (String × Json) × List Char) :=
  match fuel with
  | 0 => none
  | fuel + 1 =>
    match jsonWs s with
    | '"' :: rest =>
      match parseJString (rest.length + 1) rest [] with
      | none => none
      | some (k, rest') =>
        match jsonWs rest' with
        | ':' :: rest'' =>
          match parseJValue fuel rest'' with
          | none => none
          | some (v, rest3) =>
            match jsonWs rest3 with
            | ',' :: rest4 => parseJMembers fuel rest4 ((k, v) :: acc)
            | '\x7d' :: rest4 => some (((k, v) :: acc).reverse, rest4)
            | _ => none
        | _ => none
    | _ => none

end

/-- Model of `json.loads` on ASCII text: parse one JSON document, requiring
only whitespace to remain; `none` models a raised `json.JSONDecodeError`. -/
def jsonLoads (s : List Char) : Option Json :=
  match parseJValue (s.length + 1) s with
  | some (v, rest) => if (jsonWs rest).isEmpty then some v else none
  | none => none

/-! ### Request-id allocation

All three clients initialise `self._next_id = 1` in their constructor and
allocate ids with the same two statements `rid = self._next_id;
self._next_id += 1` (mcp_client.py `initialize`/`request`, http_client.py
`initialize`/`request`, sse_client.py `initialize`/`request`). -/

/-- Python `self._next_id = 1` in each client constructor. -/
def initialNextId : Nat := 1

/-- Python `rid = self._next_id; self._next_id += 1`: the id handed out and the
successor state. -/
def takeId (nextId : Nat) : Nat × Nat := (nextId, nextId + 1)

/-- The ids a client instance has issued after `k` requests, together with
its `_next_id` field. -/
def idsIssued : Nat → List Nat × Nat
  | 0 => ([], initialNextId)
  | k + 1 =>
    let (ids, s) := idsIssued k
    let (rid, s') := takeId s
    (ids ++ [rid], s')

/-! ### Session tracking (http_client.py, `_send_and_read` lines 53-59)

`self.session_id` starts as the empty string; a response header value of
`None` and of `""` are both falsy in Python, so the empty string doubles as
"no session recorded". -/

inductive HttpErr where
  | sessionMismatch (old new : String)
  | jsonDecode
  | unexpectedContentType (ctype : String) (status : Nat)

/-- The session logic of `_send_and_read`:
`sid = resp.getheader("Mcp-Session-Id")`; record it when none is recorded
yet, raise when a recorded one differs, otherwise leave the state alone. -/
def observeSession (sessionId : String) (hdr : Option String) :
    Except HttpErr String :=
  let sid := hdr.getD ""
  if sid != "" && sessionId == "" then .ok sid
  else if sid != "" && sessionId != "" && sid != sessionId then
    .error (.sessionMismatch sessionId sid)
  else .ok sessionId

/-! ### SSE frame parsing

The byte-level loop shared by sse_client.py `_open_sse` (lines 40-51, the
only loop that tracks the `event:` field) and, for the `data:`/blank-line
branches, http_client.py `_send_and_read` (lines 85-96) and sse_client.py
`_await_response` (lines 83-92). A blank line terminates the current event:
the loop inspects the accumulated `(event_type, data_buf)` pair — modelled
here as the emitted event — and resets both. -/

def eventMarker : List Char := ['e', 'v', 'e', 'n', 't', ':']

def dataMarker : List Char := ['d', 'a', 't', 'a', ':']

/-- Python `line[5:].lstrip()` — the payload taken from a `data:` line. -/
def stripDataPayload (line : List Char) : List Char := pyLstrip (line.drop 5)

/-- Python `line[6:].lstrip()` — the type taken from an `event:` line. -/
def stripEventType (line : List Char) : List Char := pyLstrip (line.drop 6)

structure SseEvent where
  type : Option String
  data : List Char

structure SseState where
  eventType : Option String
  dataBuf : List Char

def initialSseState : SseState := ⟨none, []⟩

/-- One parsed (already CR/LF-stripped) line. `event:` lines set the type,
`data:` lines append the stripped payload plus a newline to the buffer, a
blank line emits the accumulated event and resets the state, anything else
is ignored. -/
def sseStep (st : SseState) (line : List Char) : SseState × Option SseEvent :=
  if pyStartsWith eventMarker line then
    ({ st with eventType := some ⟨stripEventType line⟩ }, none)
  else if pyStartsWith dataMarker line then
    ({ st with dataBuf := st.dataBuf ++ stripDataPayload line ++ ['\n'] }, none)
  else if line.isEmpty then
    (initialSseState, some ⟨st.eventType, st.dataBuf⟩)
  else (st, none)

/-- Run the frame parser over a sequence of lines, collecting the emitted
events in order. -/
def sseRun (st : SseState) : List (List Char) → SseState × List SseEvent
  | [] => (st, [])
  | l :: ls =>
    let (st', ev) := sseStep st l
    let (st'', evs) := sseRun st' ls
    (st'', ev.toList ++ evs)

/-! ### Shared request construction

All three clients build the wire request with the same statements
(mcp_client.py lines 98-100, http_client.py lines 154-156, sse_client.py
lines 125-127): `req = {"jsonrpc": "2.0", "id": rid, "method": method}`,
then `req["params"] = params` when params were given. -/

def jsonRpcRequest (rid : Nat) (method : String) (params : Option Json) : Json :=
  .obj ([("jsonrpc", .str "2.0"), ("id", .num rid), ("method", .str method)] ++
    (match params with
     | some p => [("params", p)]
     | none => []))

/-- Python `params = {"name": name}` plus `params["arguments"] = arguments` when
given — built identically by every client's `tools_call`. -/
def toolsCallParams (name : String) (arguments : Option Json) : Json :=
  .obj ([("name", .str name)] ++
    (match arguments with
     | some a => [("arguments", a)]
     | none => []))

/-- The `initialize` request params (mcp_client.py lines 73-77,
http_client.py lines 136-140, sse_client.py lines 109-113). -/
def initializeParams (protocolVersion clientName version : String) : Json :=
  .obj [("protocolVersion", .str protocolVersion),
        ("clientInfo", .obj [("name", .str clientName), ("version", .str version)]),
        ("capabilities", .obj [])]

/-! ### Stdio transport (mcp_client.py)

Inbound stdout traffic is modelled as a list of timed items: `.line j` is
one newline-delimited line whose text `json.loads`-decodes to `j` (line
framing and decoding are the collaborators `readline`/`json.loads`), paired
with the instant at which the line becomes readable; `.eofRead` is a
`readline()` that returns `""` because the stream closed. Wall-clock time
(`time.time()`, `select` timeouts) is modelled in abstract ticks. -/

inductive StdioItem where
  | line (j : Json)
  | eofRead

inductive StdioErr where
  /-- Python `TimeoutError` (from `_read_msgs_once` or from `_await_response`). -/
  | timeout (msg : String)
  /-- Python `RuntimeError("Server closed stdout (no more JSON)")`. -/
  | transportClosed

/-- Python `isinstance(data, list)`: one decoded line is either a batched array of
messages or a single message (mcp_client.py lines 45-48). -/
def lineMsgs : Json → List Json
  | .arr xs => xs
  | j => [j]

/-- mcp_client.py `_read_msgs_once` (lines 36-48): `select` on stdout with
the caller-supplied timeout; nothing readable within the window raises
`TimeoutError`, an end-of-stream read raises `RuntimeError`, otherwise one
line is consumed. Errors carry the tick at which they are raised; a
successful read returns the decoded messages, the remaining stream and the
tick after the read. -/
def readMsgsOnce (now timeout : Nat) :
    List (Nat × StdioItem) →
      Except (StdioErr × Nat) (List Json × List (Nat × StdioItem) × Nat)
  | [] => .error (.timeout "Timed out waiting for server output", now + timeout)
  | (t, item) :: rest =>
    if t ≤ now + timeout then
      match item with
      | .eofRead => .error (.transportClosed, max now t)
      | .line j => .ok (lineMsgs j, rest, max now t)
    else .error (.timeout "Timed out waiting for server output", now + timeout)

/-- Whether a message resolves the await for `reqId`: it has an `"id"` key
and `msg.get("id") == req_id`. -/
def msgMatches (reqId : Int) (m : Json) : Bool :=
  m.hasKey "id" && (m.pyGet "id").beq (.num reqId)

/-- The inner loop of `_await_response` (mcp_client.py lines 54-60): scan
the decoded messages in order; an id-less message is appended to
`self._notifications`; the first message whose id equals `req_id` is
returned, ending the scan. -/
def scanMsgs (reqId : Int) (notifs : List Json) :
    List Json → List Json × Option Json
  | [] => (notifs, none)
  | m :: ms =>
    if !m.hasKey "id" then scanMsgs reqId (notifs ++ [m]) ms
    else if (m.pyGet "id").beq (.num reqId) then (notifs, some m)
    else scanMsgs reqId notifs ms

/-- mcp_client.py `_await_response` (lines 50-62): loop while
`time.time() < deadline`, reading one line with the remaining time as the
`select` timeout (`_read_msgs_once` is inlined here so the recursion is on
the inbound stream; `awaitResponse_reads` below recovers the factored
form) and scanning each batch; exiting the loop raises `TimeoutError`. On
success returns the matching message and the final notification queue; on
failure, the error and the tick at which it is raised. -/
def awaitResponse (reqId : Int) (deadline : Nat) :
    Nat → List (Nat × StdioItem) → List Json →
      Except (StdioErr × Nat) (Json × List Json)
  | now, [], _ =>
    if now < deadline then
      .error (.timeout "Timed out waiting for server output", now + (deadline - now))
    else .error (.timeout "No response for id within timeout", now)
  | now, (t, item) :: rest, notifs =>
    if now < deadline then
      if t ≤ now + (deadline - now) then
        match item with
        | .eofRead => .error (.transportClosed, max now t)
        | .line j =>
          match scanMsgs reqId notifs (lineMsgs j) with
          | (notifs', some m) => .ok (m, notifs')
          | (notifs', none) => awaitResponse reqId deadline (max now t) rest notifs'
      else
        .error (.timeout "Timed out waiting for server output", now + (deadline - now))
    else .error (.timeout "No response for id within timeout", now)

/-- Each iteration of `awaitResponse` is exactly one `_read_msgs_once` call
followed by the batch scan — the factored shape of the source. -/
theorem awaitResponse_reads (reqId : Int) (deadline now : Nat)
    (stream : List (Nat × StdioItem)) (notifs : List Json) (h : now < deadline) :
    awaitResponse reqId deadline now stream notifs =
      match readMsgsOnce now (deadline - now) stream with
      | .error e => .error e
      | .ok (msgs, rest, t') =>
        match scanMsgs reqId notifs msgs with
        | (notifs', some m) => .ok (m, notifs')
        | (notifs', none) => awaitResponse reqId deadline t' rest notifs' := by
  match stream with
  | [] => simp [awaitResponse, readMsgsOnce, h]
  | (t, item) :: rest =>
    simp only [awaitResponse, readMsgsOnce, if_pos h]
    split
    · cases item <;> rfl
    · rfl

/-- mcp_client.py `request` (lines 93-103): allocate the next id, build the
wire message and write it to the transport (`_write_msg`), then await the
reply. The write is unconditional — the client object keeps no handshake
state at all, so nothing distinguishes a call made before `initialize` from
one made after. Returns the messages written, the id awaited and the
successor `_next_id`. -/
def stdioRequestWrites (nextId : Nat) (method : String) (params : Option Json) :
    List Json × Nat × Nat :=
  let rid := nextId
  let req := jsonRpcRequest rid method params
  ([req], rid, nextId + 1)

/-- mcp_client.py `tools_call` (lines 108-113): delegates to `request` with
method `"tools/call"`. -/
def stdioToolsCallWrites (nextId : Nat) (name : String) (arguments : Option Json) :
    List Json × Nat × Nat :=
  stdioRequestWrites nextId "tools/call" (some (toolsCallParams name arguments))

/-! ### HTTP streamable transport (http_client.py)

An HTTP response is modelled by its status, the two headers `_send_and_read`
inspects, and the raw body bytes. `resp.readline()` chunking for the SSE
branch is recovered from the body by `splitLines`. -/

structure HttpResponse where
  status : Nat
  sessionIdHdr : Option String
  contentTypeHdr : Option String
  body : List Char

/-- Python `resp.readline()` chunking: each chunk ends with the newline it was cut
at; a final unterminated chunk is returned as-is; afterwards `readline`
returns `b""` (modelled by list exhaustion). -/
def splitLinesAux : List Char → List Char → List (List Char)
  | [], acc => if acc.isEmpty then [] else [acc.reverse]
  | c :: cs, acc =>
    if c == '\n' then (c :: acc).reverse :: splitLinesAux cs []
    else splitLinesAux cs (c :: acc)

def splitLines (s : List Char) : List (List Char) := splitLinesAux s []

/-- Python `(resp.getheader("Content-Type") or "").split(";")[0].strip()`. -/
def contentTypeOf (hdr : Option String) : String :=
  ⟨pyStrip (((hdr.getD "").toList).takeWhile (fun c => c != ';'))⟩

/-- The element scan of the batched-array case (http_client.py lines
97-106): return the first element whose `m.get("id")` equals the target
(`continue`-ing every element when no response is expected). -/
def findInBatch (expectResponse : Bool) (targetId : Json) : List Json → Option Json
  | [] => none
  | m :: ms =>
    if !expectResponse then findInBatch expectResponse targetId ms
    else if (m.pyGet "id").beq targetId then some m
    else findInBatch expectResponse targetId ms

/-- The SSE read loop of `_send_and_read` (http_client.py lines 79-120):
accumulate `data:` payloads; at each blank line decode the non-empty buffer
(a decode failure leaves `msg = None`), reset the buffer, and return the
decoded message — or the first element of a decoded batch — whose id equals
`target_id`; when `readline` returns `b""` the loop drains and yields
nothing. All other lines (`event:`, `id:`, comments) are ignored. -/
def sseSearch (expectResponse : Bool) (targetId : Json) :
    List (List Char) → List Char → Option Json
  | [], _ => none
  | chunk :: rest, buf =>
    let line := rstripCRLF chunk
    if pyStartsWith dataMarker line then
      sseSearch expectResponse targetId rest (buf ++ stripDataPayload line ++ ['\n'])
    else if line.isEmpty then
      if !buf.isEmpty then
        match jsonLoads buf with
        | some (.arr ms) =>
          (match findInBatch expectResponse targetId ms with
           | some m => some m
           | none => sseSearch expectResponse targetId rest [])
        | some (.obj kvs) =>
          if expectResponse && ((Json.obj kvs).pyGet "id").beq targetId then
            some (.obj kvs)
          else sseSearch expectResponse targetId rest []
        | _ => sseSearch expectResponse targetId rest []
      else sseSearch expectResponse targetId rest buf
    else sseSearch expectResponse targetId rest buf

/-- http_client.py `_send_and_read` (lines 38-127) from the point the
response is available: validate the session header, then branch — status
202/204 or a send not expecting a reply drains and returns nothing; an
`application/json` body is decoded directly (empty body → `None`); a
`text/event-stream` body is read through the SSE loop; any other content
type raises. Returns the updated `self.session_id` and the optional
message. -/
def sendAndRead (sessionId : String) (payload : Json) (expectResponse : Bool)
    (resp : HttpResponse) : Except HttpErr (String × Option Json) :=
  match observeSession sessionId resp.sessionIdHdr with
  | .error e => .error e
  | .ok session' =>
    if resp.status == 202 || resp.status == 204 || !expectResponse then
      .ok (session', none)
    else
      let ctype := contentTypeOf resp.contentTypeHdr
      if ctype == "application/json" then
        if resp.body.isEmpty then .ok (session', none)
        else
          match jsonLoads resp.body with
          | some j => .ok (session', some j)
          | none => .error .jsonDecode
      else if ctype == "text/event-stream" then
        .ok (session', sseSearch expectResponse (payload.pyGet "id")
              (splitLines resp.body) [])
      else .error (.unexpectedContentType ctype resp.status)

/-- Python `x or {}` applied to the result of `_send_and_read`: any falsy
value (`None` included) is replaced by the empty dict. -/
def pyOrEmptyObj : Option Json → Json
  | none => .obj []
  | some j => if j.pyTruthy then j else .obj []

/-- http_client.py `request` (lines 151-157): allocate the next id, build
the request — the POST to the transport is unconditional (`_send_and_read`
opens a connection and posts before anything can fail; the client keeps no
handshake state) — and return `self._send_and_read(req) or {}`. The result
carries the updated session, the successor `_next_id` and the returned
object. -/
def httpRequest (sessionId : String) (nextId : Nat) (method : String)
    (params : Option Json) (resp : HttpResponse) :
    Except HttpErr (String × Nat × Json) :=
  let rid := nextId
  let req := jsonRpcRequest rid method params
  match sendAndRead sessionId req true resp with
  | .error e => .error e
  | .ok (session', r) => .ok (session', nextId + 1, pyOrEmptyObj r)

/-- The one payload http_client.py `request` POSTs (via `_send_and_read`
lines 40-41, which always open a connection and send before reading). -/
def httpRequestPosts (nextId : Nat) (method : String) (params : Option Json) :
    List Json :=
  [jsonRpcRequest nextId method params]

/-- http_client.py `tools_call` (lines 162-166): delegates to `request`
with method `"tools/call"`; the POSTed payloads. -/
def httpToolsCallPosts (nextId : Nat) (name : String) (arguments : Option Json) :
    List Json :=
  httpRequestPosts nextId "tools/call" (some (toolsCallParams name arguments))

/-! ### SSE legacy transport (sse_client.py) -/

inductive SseClientErr where
  /-- Python `RuntimeError("SSE GET failed: ...")`. -/
  | sseGetFailed (status : Nat)
  /-- Python `RuntimeError("SSE stream ended before endpoint event")`. -/
  | streamEnded
  /-- Python `RuntimeError("No endpoint provided by server")`. -/
  | noEndpoint
  /-- Python `RuntimeError("SSE POST failed: ...")`. -/
  | postFailed (status : Nat)

/-- The loop of `_open_sse` (sse_client.py lines 36-51): read lines until a
blank line closes an `endpoint`-typed event, whose stripped data buffer is
the endpoint; any other completed event resets the state; end of stream
before that raises. -/
def findEndpoint : List (List Char) → Option String → List Char →
    Except SseClientErr (List Char)
  | [], _, _ => .error .streamEnded
  | chunk :: rest, eventType, dataBuf =>
    let line := rstripCRLF chunk
    if pyStartsWith eventMarker line then
      findEndpoint rest (some ⟨stripEventType line⟩) dataBuf
    else if pyStartsWith dataMarker line then
      findEndpoint rest eventType (dataBuf ++ stripDataPayload line ++ ['\n'])
    else if line.isEmpty then
      if eventType == some "endpoint" then .ok (pyStrip dataBuf)
      else findEndpoint rest none []
    else findEndpoint rest eventType dataBuf

/-- sse_client.py `_open_sse` (lines 27-58): the GET must answer 200 with
content type `text/event-stream`; then the endpoint is read off the stream
and must be non-empty. -/
def openSse (getStatus : Nat) (ctypeHdr : Option String)
    (lines : List (List Char)) : Except SseClientErr (List Char) :=
  if !(getStatus == 200) || !(contentTypeOf ctypeHdr == "text/event-stream") then
    .error (.sseGetFailed getStatus)
  else
    match findEndpoint lines none [] with
    | .error e => .error e
    | .ok endpoint =>
      if endpoint.isEmpty then .error .noEndpoint
      else .ok endpoint

/-- The state of an `MCPSSEClient` after construction: `_endpoint_path`
(set once by `_open_sse`, written nowhere else in the class) and
`_next_id`. -/
structure SseClientState where
  endpointPath : Option (List Char)
  nextId : Nat

/-- The constructor (sse_client.py lines 18-25): `_next_id = 1`,
`_endpoint_path = None`, then `_open_sse()` fills the endpoint. -/
def mkSseClient (getStatus : Nat) (ctypeHdr : Option String)
    (lines : List (List Char)) : Except SseClientErr SseClientState :=
  match openSse getStatus ctypeHdr lines with
  | .error e => .error e
  | .ok endpoint => .ok ⟨some endpoint, initialNextId⟩

/-- sse_client.py `_post` (line 64): every send goes to
`self._endpoint_path or "/"` on its own fresh connection. -/
def postPath (st : SseClientState) : List Char := st.endpointPath.getD ['/']

/-- sse_client.py `_post` (lines 65-70): the short-lived POST connection is
drained and closed; only `resp.status not in (200, 202, 204)` raises. The
RPC reply is never taken from this connection. -/
def postAck (status : Nat) : Except SseClientErr Unit :=
  if status == 200 || status == 202 || status == 204 then .ok ()
  else .error (.postFailed status)

/-- sse_client.py `request` (lines 122-129): allocate the next id, build
the request, `_post` it (to `postPath`), then await the reply on the
long-lived GET stream. Returns the successor state, the path posted to and
the posted payload. -/
def sseClientRequest (st : SseClientState) (method : String)
    (params : Option Json) : SseClientState × List Char × Json :=
  let rid := st.nextId
  let req := jsonRpcRequest rid method params
  ({ st with nextId := st.nextId + 1 }, postPath st, req)

/-- sse_client.py `initialize` (lines 102-116). -/
def sseClientInitialize (st : SseClientState)
    (protocolVersion clientName version : String) :
    SseClientState × List Char × Json :=
  sseClientRequest st "initialize"
    (some (initializeParams protocolVersion clientName version))

/-- sse_client.py `tools_list` (lines 131-132). -/
def sseClientToolsList (st : SseClientState) :
    SseClientState × List Char × Json :=
  sseClientRequest st "tools/list" (some (.obj []))

/-- sse_client.py `tools_call` (lines 134-138). -/
def sseClientToolsCall (st : SseClientState) (name : String)
    (arguments : Option Json) : SseClientState × List Char × Json :=
  sseClientRequest st "tools/call" (some (toolsCallParams name arguments))

/-- sse_client.py `send_initialized` (lines 118-120): a notification has no
id and does not touch `_next_id`. -/
def sseClientSendInitialized (st : SseClientState) :
    SseClientState × List Char × Json :=
  (st, postPath st,
    .obj [("jsonrpc", .str "2.0"), ("method", .str "notifications/initialized"),
          ("params", .obj [])])

/-- The response with id 1 from the batched-reply scenario of the spec:
the decoding of `{"jsonrpc":"2.0","id":1,"result":{}}`. -/
def batchIdOneMsg : Json :=
  .obj [("jsonrpc", .str "2.0"), ("id", .num 1), ("result", .obj [])]

/-- The id-less notification from the batched-reply scenario: the decoding
of `{"jsonrpc":"2.0","method":"notifications/x"}`. -/
def batchNotifMsg : Json :=
  .obj [("jsonrpc", .str "2.0"), ("method", .str "notifications/x")]

/-! ## Theorems -/

theorem idsIssued_eq (k : Nat) :
    idsIssued k = ((List.range k).map (· + 1), k + 1) := by
  induction k with
  | zero => rfl
  | succ k ih => simp [idsIssued, ih, takeId, List.range_succ, initialNextId]

/-- C3: For every client instance, the request identifiers assigned to
outgoing requests are `1, 2, 3, ...` — they start at 1, are strictly
increasing, and are never reused within the instance's lifetime. -/
theorem requestIds_strictly_increasing_from_one (k : Nat) :
    (idsIssued k).1 = (List.range k).map (· + 1) ∧
    (idsIssued k).1.Pairwise (· < ·) ∧
    (idsIssued k).1.Nodup ∧
    (idsIssued k).1.head? = if k = 0 then none else some 1 := by
  have h := idsIssued_eq k
  have hpw : ((List.range k).map (· + 1)).Pairwise (· < ·) :=
    (List.pairwise_lt_range k).map _ (fun a b hab => by omega)
  refine ⟨by rw [h], by rw [h]; exact hpw, ?_, ?_⟩
  · rw [h]
    exact hpw.imp (fun hab => Nat.ne_of_lt hab)
  · rw [h]
    cases k with
    | zero => rfl
    | succ k => simp [List.range_succ_eq_map]

/-- C2: The HTTP streamable client records the first non-empty
`Mcp-Session-Id` header; a later non-empty header with a different value
raises (never silently resolved); an equal or absent header leaves the
recorded session unchanged. -/
theorem sessionId_recorded_once_and_validated (recorded : String)
    (hdr : Option String) (s : String) :
    (recorded = "" → hdr = some s → s ≠ "" →
      observeSession recorded hdr = .ok s) ∧
    (recorded ≠ "" → hdr = some s → s ≠ "" → s ≠ recorded →
      observeSession recorded hdr = .error (.sessionMismatch recorded s)) ∧
    observeSession recorded (some recorded) = .ok recorded ∧
    observeSession recorded none = .ok recorded ∧
    observeSession recorded (some "") = .ok recorded := by
  refine ⟨?_, ?_, ?_, ?_, ?_⟩
  · intro h1 h2 h3
    subst h1 h2
    simp [observeSession, h3]
  · intro h1 h2 h3 h4
    subst h2
    simp [observeSession, h1, h3, h4]
  · by_cases h : recorded = "" <;> simp [observeSession, h]
  · simp [observeSession]
  · simp [observeSession]

/-- Witness for C2: the header `A` on a fresh client is recorded; a later
header `B` raises a session-mismatch error. -/
theorem sessionId_recorded_once_and_validated_witness :
    observeSession "" (some "A") = .ok "A" ∧
    observeSession "A" (some "B") = .error (.sessionMismatch "A" "B") :=
  ⟨(sessionId_recorded_once_and_validated "" (some "A") "A").1 rfl rfl (by decide),
   (sessionId_recorded_once_and_validated "A" (some "B") "B").2.1 (by decide) rfl
     (by decide) (by decide)⟩

/-- C5: Feeding the lines of `event: message` / `data: {"a":1}` / blank
into the SSE frame parser emits exactly one event of type `message` whose
data payload decodes to the JSON object with the single member a = 1, and
leaves the parser state (event type and data buffer) reset. -/
theorem sse_frame_roundtrip :
    sseRun initialSseState
        ["event: message".toList, "data: \x7b\"a\":1\x7d".toList, "".toList] =
      (initialSseState, [⟨some "message", "\x7b\"a\":1\x7d\n".toList⟩]) ∧
    jsonLoads "\x7b\"a\":1\x7d\n".toList = some (.obj [("a", .num 1)]) :=
  ⟨rfl, rfl⟩

/-- C9 counterexample: on the line `data:  a` (two spaces) the parser
produces the buffer `a\n` — it strips *all* leading whitespace, not just
one optional space, so the second space is not preserved as the claim
requires. -/
theorem data_line_strip_counterexample :
    (sseStep initialSseState "data:  a".toList).1.dataBuf = "a\n".toList ∧
    ¬ (sseStep initialSseState "data:  a".toList).1.dataBuf = " a\n".toList := by
  exact ⟨rfl, by decide⟩

/-- A list's `dropWhile` never starts with an element satisfying the
predicate. -/
theorem head?_dropWhile_false {α : Type} (p : α → Bool) (l : List α) :
    ∀ c ∈ (l.dropWhile p).head?, p c = false := by
  induction l with
  | nil => simp
  | cons a t ih =>
    by_cases h : p a
    · simpa [List.dropWhile, h] using ih
    · simp [List.dropWhile, h]

/-- C9 amended: for every SSE input line beginning with `data:`, the parser
strips the `data:` marker and then *all* leading whitespace of the payload
(not merely one optional space), appending what remains plus a newline to
the data buffer; the event type is untouched and nothing is emitted. -/
theorem data_line_strip_amended (st : SseState) (line : List Char)
    (h : pyStartsWith dataMarker line = true) :
    ∃ ws rest, line.drop 5 = ws ++ rest ∧
      (∀ c ∈ ws, pyWsChar c = true) ∧
      (∀ c ∈ rest.head?, pyWsChar c = false) ∧
      (sseStep st line).1.dataBuf = st.dataBuf ++ rest ++ ['\n'] ∧
      (sseStep st line).1.eventType = st.eventType ∧
      (sseStep st line).2 = none := by
  obtain ⟨tail, rfl⟩ : ∃ tail, dataMarker ++ tail = line :=
    List.isPrefixOf_iff_prefix.mp h
  refine ⟨(dataMarker ++ tail).drop 5 |>.takeWhile pyWsChar,
    (dataMarker ++ tail).drop 5 |>.dropWhile pyWsChar,
    (List.takeWhile_append_dropWhile _ _).symm,
    fun c hc => List.mem_takeWhile_imp hc,
    head?_dropWhile_false _ _, ?_, ?_, ?_⟩ <;>
  · have hev : pyStartsWith eventMarker (dataMarker ++ tail) = false := rfl
    simp [sseStep, hev, h, stripDataPayload, pyLstrip]

/-- Witness for C9 amended: instantiated at the counterexample line
`data:  a` on the fresh parser state. -/
theorem data_line_strip_amended_witness :
    ∃ ws rest, "data:  a".toList.drop 5 = ws ++ rest ∧
      (∀ c ∈ ws, pyWsChar c = true) ∧
      (∀ c ∈ rest.head?, pyWsChar c = false) ∧
      (sseStep initialSseState "data:  a".toList).1.dataBuf =
        initialSseState.dataBuf ++ rest ++ ['\n'] ∧
      (sseStep initialSseState "data:  a".toList).1.eventType =
        initialSseState.eventType ∧
      (sseStep initialSseState "data:  a".toList).2 = none :=
  data_line_strip_amended initialSseState "data:  a".toList (by decide)

/-- C1 counterexample: on a freshly constructed stdio client — on which
`initialize` has never been called — `tools_call` writes a message to the
transport instead of failing fast with nothing sent. -/
theorem toolsCall_before_initialize_counterexample :
    (stdioToolsCallWrites initialNextId "read_graph" none).1.length = 1 ∧
    ¬ (stdioToolsCallWrites initialNextId "read_graph" none).1 = [] := by
  refine ⟨rfl, ?_⟩
  intro h
  simp [stdioToolsCallWrites, stdioRequestWrites] at h

/-- C1 amended: the clients keep no handshake state, so a tool invocation
issued before `initialize` behaves exactly as one issued after: it sends
one `tools/call` request with the next id to the transport (stdio write,
HTTP POST) and advances the id counter. -/
theorem toolsCall_sends_regardless_of_initialization (nextId : Nat)
    (name : String) (arguments : Option Json) :
    (stdioToolsCallWrites nextId name arguments).1 =
      [jsonRpcRequest nextId "tools/call" (some (toolsCallParams name arguments))] ∧
    (stdioToolsCallWrites nextId name arguments).2.1 = nextId ∧
    (stdioToolsCallWrites nextId name arguments).2.2 = nextId + 1 ∧
    httpToolsCallPosts nextId name arguments =
      [jsonRpcRequest nextId "tools/call" (some (toolsCallParams name arguments))] :=
  ⟨rfl, rfl, rfl, rfl⟩

/-- The batch scan queues exactly the id-less messages that precede the
first matching message; everything after the match is never examined. -/
theorem scanMsgs_queues_before_match (reqId : Int) (m : Json)
    (hm : msgMatches reqId m = true) :
    ∀ (pre post notifs : List Json),
      (∀ x ∈ pre, msgMatches reqId x = false) →
      scanMsgs reqId notifs (pre ++ m :: post) =
        (notifs ++ pre.filter (fun x => !x.hasKey "id"), some m) := by
  intro pre
  induction pre with
  | nil =>
    intro post notifs _
    unfold msgMatches at hm
    simp only [Bool.and_eq_true] at hm
    obtain ⟨h1, h2⟩ := hm
    simp [scanMsgs, h1, h2]
  | cons x xs ih =>
    intro post notifs hpre
    have hx := hpre x (by simp)
    by_cases hid : x.hasKey "id"
    · have hbeq : (x.pyGet "id").beq (.num reqId) = false := by
        unfold msgMatches at hx
        simpa [hid] using hx
      simp only [List.cons_append, scanMsgs, hid, Bool.not_true,
        Bool.false_eq_true, if_false, hbeq, List.filter_cons, List.append_eq]
      simpa [hid] using ih post notifs (fun y hy => hpre y (by simp [hy]))
    · simp only [List.cons_append, scanMsgs, hid, Bool.not_false, if_true,
        List.filter_cons, List.append_eq]
      rw [ih post (notifs ++ [x]) (fun y hy => hpre y (by simp [hy]))]
      simp [hid]

/-- C4 counterexample: the single line decoding to the batched array
`[{id 1 response}, {notification}]` resolves the wait for id 1, but the
trailing notification is never appended to the queue — the scan stops at
the matching message, so the queue gains zero elements, not exactly one. -/
theorem batched_reply_counterexample :
    jsonLoads ("[\x7b\"jsonrpc\":\"2.0\",\"id\":1,\"result\":\x7b\x7d\x7d,\x7b\"jsonrpc\":\"2.0\",\"method\":\"notifications/x\"\x7d]".toList)
        = some (.arr [batchIdOneMsg, batchNotifMsg]) ∧
    awaitResponse 1 10 0 [(0, .line (.arr [batchIdOneMsg, batchNotifMsg]))] [] =
      .ok (batchIdOneMsg, []) ∧
    ¬ awaitResponse 1 10 0 [(0, .line (.arr [batchIdOneMsg, batchNotifMsg]))] [] =
      .ok (batchIdOneMsg, [batchNotifMsg]) := by
  refine ⟨rfl, rfl, ?_⟩
  intro hcontra
  have heval : awaitResponse 1 10 0
      [(0, .line (.arr [batchIdOneMsg, batchNotifMsg]))] [] =
      .ok (batchIdOneMsg, []) := rfl
  rw [heval] at hcontra
  simp at hcontra

/-- C4 amended: the await returns the message with id 1 and the
notification queue stays empty, because the batch scan stops at the first
matching message and later batch elements are dropped; an id-less message
is queued exactly when it arrives before the match (so the reversed batch
queues the notification). -/
theorem batched_reply_queue_semantics :
    awaitResponse 1 10 0 [(0, .line (.arr [batchIdOneMsg, batchNotifMsg]))] [] =
      .ok (batchIdOneMsg, []) ∧
    awaitResponse 1 10 0 [(0, .line (.arr [batchNotifMsg, batchIdOneMsg]))] [] =
      .ok (batchIdOneMsg, [batchNotifMsg]) ∧
    (∀ (reqId : Int) (m : Json), msgMatches reqId m = true →
      ∀ (pre post notifs : List Json),
        (∀ x ∈ pre, msgMatches reqId x = false) →
        scanMsgs reqId notifs (pre ++ m :: post) =
          (notifs ++ pre.filter (fun x => !x.hasKey "id"), some m)) :=
  ⟨rfl, rfl, scanMsgs_queues_before_match⟩

/-- Witness for C4 amended: the general queue characterization applied to
the reversed concrete batch. -/
theorem batched_reply_queue_semantics_witness :
    scanMsgs 1 [] ([batchNotifMsg] ++ batchIdOneMsg :: []) =
      ([] ++ [batchNotifMsg].filter (fun x => !x.hasKey "id"), some batchIdOneMsg) :=
  batched_reply_queue_semantics.2.2 1 batchIdOneMsg rfl [batchNotifMsg] [] []
    (by intro x hx; rw [List.mem_singleton] at hx; subst hx; rfl)

/-- A batch in which nothing matches leaves the scan without a result. -/
theorem scanMsgs_snd_none (reqId : Int) :
    ∀ (msgs notifs : List Json), (∀ m ∈ msgs, msgMatches reqId m = false) →
      (scanMsgs reqId notifs msgs).2 = none := by
  intro msgs
  induction msgs with
  | nil => intro notifs _; rfl
  | cons m ms ih =>
    intro notifs h
    have hm := h m (by simp)
    by_cases hid : m.hasKey "id"
    · have hbeq : (m.pyGet "id").beq (.num reqId) = false := by
        unfold msgMatches at hm
        simpa [hid] using hm
      simp only [scanMsgs, hid, Bool.not_true, Bool.false_eq_true, if_false, hbeq]
      exact ih _ (fun x hx => h x (by simp [hx]))
    · simp only [scanMsgs, hid, Bool.not_false, if_true]
      exact ih _ (fun x hx => h x (by simp [hx]))

/-- A stream in which everything that becomes readable at or before the
deadline is a line with no matching message (whatever arrives later — a
matching reply, an end-of-stream — is unconstrained) always ends in a
`Timeout` raised at or after the deadline. -/
theorem awaitResponse_noMatch_timeout (reqId : Int) (deadline : Nat) :
    ∀ (stream : List (Nat × StdioItem)) (now : Nat) (notifs : List Json),
      (∀ e ∈ stream, e.1 ≤ deadline → ∃ j, e.2 = StdioItem.line j ∧
          ∀ m ∈ lineMsgs j, msgMatches reqId m = false) →
      ∃ msg t, awaitResponse reqId deadline now stream notifs =
          .error (.timeout msg, t) ∧ deadline ≤ t := by
  intro stream
  induction stream with
  | nil =>
    intro now notifs _
    by_cases h : now < deadline
    · exact ⟨"Timed out waiting for server output", now + (deadline - now),
        by simp [awaitResponse, h], by omega⟩
    · exact ⟨"No response for id within timeout", now,
        by simp [awaitResponse, h], by omega⟩
  | cons e rest ih =>
    obtain ⟨t, item⟩ := e
    intro now notifs h
    by_cases hlt : now < deadline
    · by_cases ht : t ≤ now + (deadline - now)
      · have htd : t ≤ deadline := by omega
        obtain ⟨j, hj, hnm⟩ := h (t, item) (by simp) htd
        cases item with
        | eofRead => exact absurd hj (by simp)
        | line j' =>
          have hj' : j' = j := by simpa using hj
          rw [← hj'] at hnm
          have hscan := scanMsgs_snd_none reqId (lineMsgs j') notifs hnm
          have hn' : scanMsgs reqId notifs (lineMsgs j') =
              ((scanMsgs reqId notifs (lineMsgs j')).1, none) := by
            rw [← hscan]
          obtain ⟨msg, t', hrec, hle⟩ :=
            ih (max now t) ((scanMsgs reqId notifs (lineMsgs j')).1)
              (fun x hx hxd => h x (by simp [hx]) hxd)
          refine ⟨msg, t', ?_, hle⟩
          rw [awaitResponse, if_pos hlt, if_pos ht, hn']
          exact hrec
      · exact ⟨"Timed out waiting for server output", now + (deadline - now),
          by simp [awaitResponse, hlt, ht], by omega⟩
    · exact ⟨"No response for id within timeout", now,
        by simp [awaitResponse, hlt], by omega⟩

/-- C7: For the stdio client, a wait during which no matching message and
no end-of-stream becomes readable before the deadline `now + T` ends in a
`Timeout` error raised no earlier than that deadline — this covers nothing
becoming readable at all, only non-matching messages arriving in time, and
a matching reply or stream close that becomes readable only after the
deadline (the late reply is an orphan, not a result). An end-of-stream
read within the window instead fails with the transport-closed error. In
either case the await has returned — nothing for that id remains
pending. -/
theorem stdio_timeout_and_transport_closed :
    (∀ (reqId : Int) (T now : Nat) (stream : List (Nat × StdioItem))
        (notifs : List Json),
      (∀ e ∈ stream, e.1 ≤ now + T → ∃ j, e.2 = StdioItem.line j ∧
          ∀ m ∈ lineMsgs j, msgMatches reqId m = false) →
      ∃ msg t, awaitResponse reqId (now + T) now stream notifs =
          .error (.timeout msg, t) ∧ now + T ≤ t) ∧
    (∀ (reqId : Int) (T now t : Nat) (rest : List (Nat × StdioItem))
        (notifs : List Json),
      now < now + T → t ≤ now + T →
      awaitResponse reqId (now + T) now ((t, StdioItem.eofRead) :: rest) notifs =
        .error (.transportClosed, max now t)) := by
  constructor
  · intro reqId T now stream notifs h
    exact awaitResponse_noMatch_timeout reqId (now + T) stream now notifs h
  · intro reqId T now t rest notifs h1 h2
    have h2' : t ≤ now + (now + T - now) := by omega
    rw [awaitResponse, if_pos h1, if_pos h2']

/-- Witness for C7: an empty window times out at the deadline; a matching
reply for id 1 that becomes readable only at tick 10 of a 5-tick window
still times out; an end-of-stream read at tick 3 of the window fails
transport-closed. -/
theorem stdio_timeout_and_transport_closed_witness :
    (∃ msg t, awaitResponse 1 (0 + 5) 0 [] [] = .error (.timeout msg, t) ∧
      0 + 5 ≤ t) ∧
    (∃ msg t, awaitResponse 1 (0 + 5) 0
        [(10, .line (.obj [("id", .num 1)]))] [] = .error (.timeout msg, t) ∧
      0 + 5 ≤ t) ∧
    awaitResponse 1 (0 + 5) 0 [(3, .eofRead)] [] =
      .error (.transportClosed, max 0 3) :=
  ⟨stdio_timeout_and_transport_closed.1 1 5 0 [] [] (by simp),
   stdio_timeout_and_transport_closed.1 1 5 0
     [(10, .line (.obj [("id", .num 1)]))] []
     (by
       intro e he hle
       rw [List.mem_singleton] at he
       subst he
       exact absurd hle (by decide)),
   stdio_timeout_and_transport_closed.2 1 5 0 3 [] [] (by omega) (by omega)⟩

/-- C10: When `_send_and_read` yields no message, `request` — and hence
`tools_list`/`tools_call` — returns the empty JSON object instead of
raising, exactly the result produced when the reply body is the empty
object itself. -/
theorem httpRequest_missing_reply_empty_obj (sessionId s' : String)
    (nextId : Nat) (method : String) (params : Option Json)
    (resp : HttpResponse) :
    (sendAndRead sessionId (jsonRpcRequest nextId method params) true resp =
        .ok (s', none) →
      httpRequest sessionId nextId method params resp =
        .ok (s', nextId + 1, .obj [])) ∧
    (sendAndRead sessionId (jsonRpcRequest nextId method params) true resp =
        .ok (s', some (.obj [])) →
      httpRequest sessionId nextId method params resp =
        .ok (s', nextId + 1, .obj [])) := by
  constructor <;> intro h <;>
    simp [httpRequest, h, pyOrEmptyObj, Json.pyTruthy]

/-- Witness for C10: a 202 Accepted response with no body makes `request`
return the empty object. -/
theorem httpRequest_missing_reply_empty_obj_witness :
    httpRequest "" 1 "tools/list" (some (.obj [])) ⟨202, none, none, []⟩ =
      .ok ("", 2, .obj []) :=
  (httpRequest_missing_reply_empty_obj "" "" 1 "tools/list" (some (.obj []))
    ⟨202, none, none, []⟩).1 rfl

/-- When a batch scan of the SSE loop returns a message, its id equals the
awaited target. -/
theorem findInBatch_matches (targetId : Json) :
    ∀ (ms : List Json) (m : Json),
      findInBatch true targetId ms = some m →
      (m.pyGet "id").beq targetId = true := by
  intro ms
  induction ms with
  | nil => intro m h; simp [findInBatch] at h
  | cons x xs ih =>
    intro m h
    by_cases hb : (x.pyGet "id").beq targetId = true
    · simp only [findInBatch, Bool.not_true, Bool.false_eq_true, if_false,
        hb, if_true, Option.some.injEq] at h
      rw [← h]
      exact hb
    · simp only [findInBatch, Bool.not_true, Bool.false_eq_true, if_false,
        hb] at h
      exact ih m h

/-- When the SSE read loop of `_send_and_read` returns a message, its id
equals the awaited target. -/
theorem sseSearch_matches (targetId : Json) :
    ∀ (lines : List (List Char)) (buf : List Char) (m : Json),
      sseSearch true targetId lines buf = some m →
      (m.pyGet "id").beq targetId = true := by
  intro lines
  induction lines with
  | nil => intro buf m h; simp [sseSearch] at h
  | cons chunk rest ih =>
    intro buf m h
    by_cases h1 : pyStartsWith dataMarker (rstripCRLF chunk) = true
    · rw [sseSearch] at h
      simp only [h1, if_true] at h
      exact ih _ m h
    · by_cases h2 : (rstripCRLF chunk).isEmpty = true
      · by_cases h3 : buf.isEmpty = true
        · rw [sseSearch] at h
          simp only [h1, Bool.false_eq_true, if_false, h2, if_true, h3,
            Bool.not_true] at h
          exact ih _ m h
        · rw [sseSearch] at h
          simp only [h1, Bool.false_eq_true, if_false, h2, if_true, h3,
            Bool.not_false] at h
          cases hjl : jsonLoads buf with
          | none => rw [hjl] at h; exact ih _ m h
          | some j =>
            rw [hjl] at h
            cases j with
            | arr ms =>
              replace h : (match findInBatch true targetId ms with
                  | some m2 => some m2
                  | none => sseSearch true targetId rest []) = some m := h
              cases hfb : findInBatch true targetId ms with
              | some m' =>
                rw [hfb] at h
                obtain rfl : m' = m := by simpa using h
                exact findInBatch_matches targetId ms m' hfb
              | none => rw [hfb] at h; exact ih _ m h
            | obj kvs =>
              replace h : (if (true && ((Json.obj kvs).pyGet "id").beq targetId)
                    = true then some (Json.obj kvs)
                  else sseSearch true targetId rest []) = some m := h
              by_cases hb : ((Json.obj kvs).pyGet "id").beq targetId = true
              · simp only [Bool.true_and, hb, if_true, Option.some.injEq] at h
                rw [← h]
                exact hb
              · simp only [Bool.true_and, hb, Bool.false_eq_true, if_false] at h
                exact ih _ m h
            | null => exact ih _ m h
            | bool b => exact ih _ m h
            | num n => exact ih _ m h
            | str s => exact ih _ m h
      · rw [sseSearch] at h
        simp only [h1, Bool.false_eq_true, if_false, h2] at h
        exact ih _ m h

/-- C6: `_send_and_read` response handling, assuming the session header is
consistent: status 202/204 or a send expecting no reply yields nothing; an
`application/json` body is decoded directly (empty body → nothing, decode
failure → error); a `text/event-stream` body is read through the SSE loop
and any message it yields carries the awaited id; any other content type
fails with `unexpectedContentType`. -/
theorem sendAndRead_branch_behavior (sessionId s' : String) (payload : Json)
    (expectResponse : Bool) (resp : HttpResponse)
    (hsess : observeSession sessionId resp.sessionIdHdr = .ok s') :
    ((resp.status = 202 ∨ resp.status = 204 ∨ expectResponse = false) →
      sendAndRead sessionId payload expectResponse resp = .ok (s', none)) ∧
    (resp.status ≠ 202 → resp.status ≠ 204 → expectResponse = true →
      ((contentTypeOf resp.contentTypeHdr = "application/json" →
        (resp.body = [] →
          sendAndRead sessionId payload expectResponse resp = .ok (s', none)) ∧
        (∀ j, jsonLoads resp.body = some j → resp.body ≠ [] →
          sendAndRead sessionId payload expectResponse resp = .ok (s', some j)) ∧
        (jsonLoads resp.body = none → resp.body ≠ [] →
          sendAndRead sessionId payload expectResponse resp = .error .jsonDecode)) ∧
      (contentTypeOf resp.contentTypeHdr = "text/event-stream" →
        sendAndRead sessionId payload expectResponse resp =
          .ok (s', sseSearch true (payload.pyGet "id") (splitLines resp.body) []) ∧
        ∀ m, sseSearch true (payload.pyGet "id") (splitLines resp.body) [] = some m →
          (m.pyGet "id").beq (payload.pyGet "id") = true) ∧
      (contentTypeOf resp.contentTypeHdr ≠ "application/json" →
        contentTypeOf resp.contentTypeHdr ≠ "text/event-stream" →
        sendAndRead sessionId payload expectResponse resp =
          .error (.unexpectedContentType (contentTypeOf resp.contentTypeHdr)
            resp.status)))) := by
  constructor
  · rintro (h | h | h) <;> simp [sendAndRead, hsess, h]
  · intro h202 h204 her
    subst her
    refine ⟨?_, ?_, ?_⟩
    · intro hct
      refine ⟨?_, ?_, ?_⟩
      · intro hbody
        simp [sendAndRead, hsess, hct, h202, h204, hbody]
      · intro j hj hbody
        simp [sendAndRead, hsess, hct, hj, h202, h204, hbody]
      · intro hj hbody
        simp [sendAndRead, hsess, hct, hj, h202, h204, hbody]
    · intro hct
      refine ⟨by simp [sendAndRead, hsess, hct, h202, h204], ?_⟩
      intro m hm
      exact sseSearch_matches (payload.pyGet "id") (splitLines resp.body) [] m hm
    · intro hct1 hct2
      simp [sendAndRead, hsess, h202, h204, hct1, hct2]

/-- Witness for C6: a 202 Accepted response on a fresh client yields
nothing. -/
theorem sendAndRead_branch_behavior_witness :
    sendAndRead "" Json.null true ⟨202, none, none, []⟩ = .ok ("", none) :=
  (sendAndRead_branch_behavior "" "" Json.null true ⟨202, none, none, []⟩
    rfl).1 (Or.inl rfl)

/-- Method `_open_sse` only accepts a non-empty endpoint. -/
theorem openSse_ok_ne_nil (getStatus : Nat) (ctypeHdr : Option String)
    (lines : List (List Char)) (e : List Char)
    (h : openSse getStatus ctypeHdr lines = .ok e) : e ≠ [] := by
  unfold openSse at h
  split at h
  · exact absurd h (by simp)
  · split at h
    · exact absurd h (by simp)
    · split at h
      · exact absurd h (by simp)
      · obtain rfl : _ = e := by simpa using h
        intro hnil
        simp_all

/-- Function `findEndpoint` returns exactly the stripped data of the first
`endpoint`-typed event that the SSE frame parser emits from the stream
(stream end without one raises). -/
theorem findEndpoint_firstEndpointEvent :
    ∀ (lines : List (List Char)) (etype : Option String) (buf : List Char),
      findEndpoint lines etype buf =
        (match (sseRun ⟨etype, buf⟩ (lines.map rstripCRLF)).2.find?
            (fun ev => ev.type == some "endpoint") with
         | some ev => .ok (pyStrip ev.data)
         | none => .error .streamEnded) := by
  intro lines
  induction lines with
  | nil => intro etype buf; rfl
  | cons chunk rest ih =>
    intro etype buf
    by_cases h1 : pyStartsWith eventMarker (rstripCRLF chunk) = true
    · simp only [findEndpoint, h1, if_true, List.map_cons, sseRun, sseStep,
        Option.toList_none, List.nil_append]
      exact ih _ _
    · by_cases h2 : pyStartsWith dataMarker (rstripCRLF chunk) = true
      · simp only [findEndpoint, h1, Bool.false_eq_true, if_false, h2,
          if_true, List.map_cons, sseRun, sseStep, Option.toList_none,
          List.nil_append]
        exact ih _ _
      · by_cases h3 : (rstripCRLF chunk).isEmpty = true
        · by_cases h4 : (etype == some "endpoint") = true
          · simp only [findEndpoint, h1, Bool.false_eq_true, if_false, h2,
              h3, if_true, h4, List.map_cons, sseRun, sseStep,
              Option.toList_some, List.singleton_append]
            rw [List.find?_cons_of_pos _ (by simpa using h4)]
          · simp only [findEndpoint, h1, Bool.false_eq_true, if_false, h2,
              h3, if_true, h4, List.map_cons, sseRun, sseStep,
              Option.toList_some, List.singleton_append]
            rw [List.find?_cons_of_neg _ (by simpa using h4)]
            exact ih _ _
        · simp only [findEndpoint, h1, Bool.false_eq_true, if_false, h2, h3,
            List.map_cons, sseRun, sseStep, Option.toList_none,
            List.nil_append]
          exact ih _ _

/-- C8: Construction reads the GET event stream up to the first
`endpoint`-typed event and records its stripped, non-empty data as the POST
path; no client operation ever changes that path, every send POSTs to it,
and the short-lived POST acknowledgement is accepted exactly for HTTP
status 200, 202 or 204. -/
theorem sse_endpoint_once_and_ack :
    (∀ (getStatus : Nat) (ctypeHdr : Option String) (lines : List (List Char))
        (st : SseClientState),
      mkSseClient getStatus ctypeHdr lines = .ok st →
      ∃ endpoint, openSse getStatus ctypeHdr lines = .ok endpoint ∧
        st.endpointPath = some endpoint ∧ endpoint ≠ [] ∧
        st.nextId = initialNextId ∧ postPath st = endpoint) ∧
    (∀ (lines : List (List Char)) (etype : Option String) (buf : List Char),
      findEndpoint lines etype buf =
        (match (sseRun ⟨etype, buf⟩ (lines.map rstripCRLF)).2.find?
            (fun ev => ev.type == some "endpoint") with
         | some ev => .ok (pyStrip ev.data)
         | none => .error .streamEnded)) ∧
    (∀ (st : SseClientState) (method : String) (params : Option Json),
      (sseClientRequest st method params).1.endpointPath = st.endpointPath ∧
      (sseClientRequest st method params).2.1 = postPath st) ∧
    (∀ (st : SseClientState) (name : String) (arguments : Option Json),
      (sseClientToolsCall st name arguments).1.endpointPath = st.endpointPath) ∧
    (∀ st : SseClientState,
      (sseClientToolsList st).1.endpointPath = st.endpointPath) ∧
    (∀ (st : SseClientState) (pv cn v : String),
      (sseClientInitialize st pv cn v).1.endpointPath = st.endpointPath) ∧
    (∀ st : SseClientState,
      (sseClientSendInitialized st).1.endpointPath = st.endpointPath ∧
      (sseClientSendInitialized st).2.1 = postPath st) ∧
    (∀ status : Nat,
      postAck status = .ok () ↔ (status = 200 ∨ status = 202 ∨ status = 204)) := by
  refine ⟨?_, findEndpoint_firstEndpointEvent, fun st m p => ⟨rfl, rfl⟩,
    fun st n a => rfl, fun st => rfl, fun st pv cn v => rfl,
    fun st => ⟨rfl, rfl⟩, ?_⟩
  · intro getStatus ctypeHdr lines st h
    unfold mkSseClient at h
    cases hop : openSse getStatus ctypeHdr lines with
    | error e => rw [hop] at h; exact absurd h (by simp)
    | ok endpoint =>
      rw [hop] at h
      obtain rfl : _ = st := by simpa using h
      exact ⟨endpoint, rfl, rfl,
        openSse_ok_ne_nil getStatus ctypeHdr lines endpoint hop, rfl, rfl⟩
  · intro status
    constructor
    · intro h
      by_contra hne
      push_neg at hne
      obtain ⟨hn1, hn2, hn3⟩ := hne
      simp [postAck, hn1, hn2, hn3] at h
    · rintro (h | h | h) <;> simp [postAck, h]

/-- Witness for C8: a stream whose first event is
`event: endpoint` / `data: /messages?sessionid=abc` constructs a client
whose POST path is that endpoint. -/
theorem sse_endpoint_once_and_ack_witness :
    ∃ endpoint,
      openSse 200 (some "text/event-stream")
          ["event: endpoint\n".toList, "data: /messages?sessionid=abc\n".toList,
           "\n".toList] = .ok endpoint ∧
      (SseClientState.mk (some "/messages?sessionid=abc".toList)
          initialNextId).endpointPath = some endpoint ∧
      endpoint ≠ [] ∧
      (SseClientState.mk (some "/messages?sessionid=abc".toList)
          initialNextId).nextId = initialNextId ∧
      postPath (SseClientState.mk (some "/messages?sessionid=abc".toList)
          initialNextId) = endpoint :=
  sse_endpoint_once_and_ack.1 200 (some "text/event-stream")
    ["event: endpoint\n".toList, "data: /messages?sessionid=abc\n".toList,
     "\n".toList]
    (SseClientState.mk (some "/messages?sessionid=abc".toList) initialNextId)
    rfl

end MCP
